import Mathlib

/-! Verification of the CC_AI_Tools diff-parsing / report-assembly pipeline.

Shallow embedding of the core pipeline of `src/logic_ai_tools/git/commit_msg.py`
and `src/logic_ai_tools/git/progress_report.py`:

* `safe_int_convert`, `parse_text_response`, `parse_single_file_diff`,
  `split_by_file` (the file-splitting loop of `parse_large_diff`),
  `parse_large_diff`, `parse_diff_to_structured`, `create_fallback_structure`
  from `commit_msg.py`;
* `retry_ai_request`, the response-parsing part of `parse_commit`, and the
  grouping-by-`type/scope` step of `create_git_progress_report` from
  `progress_report.py`.

Python strings are modelled as Lean `String`s; the character-level helpers
(`pyStrip`, `splitLines`, ...) operate on `List Char` and mirror the Python
string methods used by the source (ASCII behaviour; the source is only ever
fed ASCII prompts and git output).  The AI gateway is modelled as an oracle
`String → String → Except String String` (system prompt, user message ↦
reply or raised error); functions that issue AI requests additionally return
the number of oracle calls they made.
-/

/-- ASCII model of Python `str.isdigit` (the source only meets ASCII data). -/
def pyIsDigit (c : Char) : Bool := '0' ≤ c && c ≤ '9'

/-- ASCII model of Python whitespace as recognised by `str.strip()`. -/
def pyIsSpace (c : Char) : Bool :=
  c = ' ' || c = '\t' || c = '\n' || c = '\r' || c = '\x0b' || c = '\x0c'

/-- Python `s.strip()` on a character list. -/
def pyStrip (l : List Char) : List Char :=
  ((l.dropWhile pyIsSpace).reverse.dropWhile pyIsSpace).reverse

/-- Python `s.strip()` on a `String`. -/
def pyStripS (s : String) : String := String.mk (pyStrip s.data)

/-- Python `s.lstrip(chars)`: drop leading characters belonging to `chars`. -/
def pyLStrip (chars : List Char) (l : List Char) : List Char :=
  l.dropWhile (fun c => chars.contains c)

/-- Python `s.lower()` (ASCII). -/
def pyLower (l : List Char) : List Char := l.map Char.toLower

/-- Python `s.split('\n')`: `""` gives `[""]`, a trailing newline gives a
trailing empty line, matching `str.split` with an explicit separator. -/
def splitLines : List Char → List (List Char)
  | [] => [[]]
  | c :: rest =>
    if c = '\n' then [] :: splitLines rest
    else
      match splitLines rest with
      | [] => [[c]]
      | l :: ls => (c :: l) :: ls

/-- Lifting of `splitLines` to `String`s. -/
def splitLinesS (s : String) : List (List Char) := splitLines s.data

/-- Python `s.split(sep)` for a single-character separator (used for
`funcs.split(',')` and `file.split('.')`). -/
def splitOnChar (sep : Char) : List Char → List (List Char)
  | [] => [[]]
  | c :: rest =>
    if c = sep then [] :: splitOnChar sep rest
    else
      match splitOnChar sep rest with
      | [] => [[c]]
      | l :: ls => (c :: l) :: ls

/-- First occurrence split: `some (before, after)` when `sep` occurs in `l`
(`before`/`after` surround the first occurrence), otherwise `none`.  This is
Python `s.split(sep, 1)` (two pieces when the separator occurs). -/
def pySplitOnce (sep : List Char) : List Char → Option (List Char × List Char)
  | [] => if sep = [] then some ([], []) else none
  | c :: rest =>
    if sep.isPrefixOf (c :: rest) then some ([], (c :: rest).drop sep.length)
    else
      match pySplitOnce sep rest with
      | some (pre, post) => some (c :: pre, post)
      | none => none

/-- Python `s.split(sep, 1)[1]`: the text after the first occurrence of
`sep`.  All call sites in the source guard with a `startswith`/membership
check, so the occurrence exists; we return `[]` in the impossible case. -/
def pyAfterFirst (sep : List Char) (l : List Char) : List Char :=
  match pySplitOnce sep l with
  | some (_, post) => post
  | none => []

/-- Python `s.split(sep)[1]` for a multi-character separator: the text
strictly between the first and the second occurrence of `sep` (or everything
after the first occurrence when it is the only one); `none` when `sep` does
not occur (Python raises `IndexError` there). -/
def pySplitIdx1 (sep : List Char) (l : List Char) : Option (List Char) :=
  match pySplitOnce sep l with
  | none => none
  | some (_, post) =>
    match pySplitOnce sep post with
    | none => some post
    | some (mid, _) => some mid

/-- Numeric value of a digit string (most significant digit first). -/
def digitsToNat (l : List Char) : Nat :=
  l.foldl (fun n c => n * 10 + (c.toNat - '0'.toNat)) 0

/-- Python `int(s)` restricted to strings over digits and minus characters
(the only inputs the source ever passes): `some` of the value for an
optional single leading minus followed by at least one digit, `none` (a
`ValueError`) otherwise. -/
def pyIntParse : List Char → Option Int
  | [] => none
  | '-' :: rest =>
    if rest ≠ [] ∧ rest.all pyIsDigit then some (-(digitsToNat rest : Int)) else none
  | l =>
    if l.all pyIsDigit then some (digitsToNat l : Int) else none

/-- The character filter of `safe_int_convert` (commit_msg.py lines 363-364):
keep every digit and every minus character, wherever it occurs. -/
def safeIntCleaned (value : String) : List Char :=
  value.data.filter (fun c => pyIsDigit c || c = '-')

/-- Embedding of `safe_int_convert` (commit_msg.py lines 361-367): filter the input down
to digits and minus signs, return `int(cleaned)` when that succeeds and the
cleaned string is non-empty, and `0` otherwise (empty cleaned string, or
`int` raising `ValueError`). -/
def safe_int_convert (value : String) : Int :=
  let cleaned := safeIntCleaned value
  if cleaned.isEmpty then 0
  else
    match pyIntParse cleaned with
    | some n => n
    | none => 0

/-- Modelled from the claim's words (C9): clean "by keeping only digit
characters and an optional leading minus sign" — a minus is kept only when
nothing has been kept yet — then convert, with unparseable values giving 0. -/
def claimClean : List Char → Bool → List Char
  | [], _ => []
  | c :: rest, started =>
    if pyIsDigit c then c :: claimClean rest true
    else if c = '-' && !started then c :: claimClean rest true
    else claimClean rest started

/-- Modelled from the claim's words (C9): the conversion described by the
claim, built on `claimClean`. -/
def safe_int_convert_claim (value : String) : Int :=
  match pyIntParse (claimClean value.data false) with
  | some n => n
  | none => 0

/-- Python `s.startswith(pre)`, as a prefix test on the character list. -/
def startsWith (pre : String) (l : List Char) : Bool := pre.data.isPrefixOf l

/-- Python `dict[k] = v`: replace the value of an existing key in place,
otherwise append the new key (dicts preserve insertion order). -/
def dictSet {α : Type} (m : List (String × α)) (k : String) (v : α) : List (String × α) :=
  match m with
  | [] => [(k, v)]
  | (k', v') :: rest => if k' = k then (k', v) :: rest else (k', v') :: dictSet rest k v

/-- Python `dict[k] = dict.get(k, 0) + 1` (the change-type counter of
`parse_large_diff` and the file-type counter of `create_fallback_structure`). -/
def dictIncr (m : List (String × Int)) (k : String) : List (String × Int) :=
  match m with
  | [] => [(k, 1)]
  | (k', v) :: rest => if k' = k then (k', v + 1) :: rest else (k', v) :: dictIncr rest k

/-- The `changes` sub-dictionary of a per-file entry. -/
structure FileChanges where
  additions : Int := 0
  deletions : Int := 0
  functions_modified : List String := []
  key_changes : List String := []
deriving Repr, DecidableEq

/-- One per-file entry of a structured diff (`FileChange` of the spec). -/
structure FileChange where
  name : String := ""
  change_type : String := ""
  summary : String := ""
  changes : FileChanges := {}
deriving Repr, DecidableEq

/-- The `overall_stats` dictionary.  `file_types` is only populated by
`create_fallback_structure` (absent, modelled as `[]`, elsewhere). -/
structure OverallStats where
  total_files : Int := 0
  total_additions : Int := 0
  total_deletions : Int := 0
  change_types : List (String × Int) := [("modify", 0), ("add", 0), ("delete", 0)]
  file_types : List (String × Int) := []
deriving Repr, DecidableEq

/-- The aggregate structured diff.  `high_level_summary` is only set by
`parse_large_diff` for large commits (absent, modelled as `none`, elsewhere). -/
structure StructuredDiff where
  files : List FileChange := []
  overall_stats : OverallStats := {}
  high_level_summary : Option String := none
deriving Repr, DecidableEq

/-- The freshly initialised per-file dictionary of `parse_text_response`
(empty name/type/summary, zero counts, empty lists). -/
def emptyFileEntry : FileChange := {}

/-- Mutable state of the `parse_text_response` loop: files emitted so far,
the overall statistics, and the in-progress `current_file` (if any). -/
structure PTRState where
  files : List FileChange
  stats : OverallStats
  current : Option FileChange
deriving Repr, DecidableEq

/-- Initial state of `parse_text_response` (commit_msg.py lines 351-359). -/
def ptrInit : PTRState :=
  { files := []
    stats := { total_files := 0, total_additions := 0, total_deletions := 0,
               change_types := [("modify", 0), ("add", 0), ("delete", 0)] }
    current := none }

/-- Value of a labelled field in the `parse_text_response` loop:
`normalized.split(pre, 1)[1].strip()`. -/
def ptrFieldVal (normalized : List Char) (pre : String) : List Char :=
  pyStrip (pyAfterFirst pre.data normalized)

/-- The `OVERALL STATISTICS` branch (commit_msg.py lines 381-385): push the
in-progress file, if any, and clear `current_file`. -/
def ptrOverallB (st : PTRState) : PTRState :=
  match st.current with
  | some cf => { st with files := st.files ++ [cf], current := none }
  | none => { st with current := none }

/-- The `FILE SUMMARY` branch (commit_msg.py lines 388-401): start a fresh
file entry when none is in progress. -/
def ptrFileSummaryB (st : PTRState) : PTRState :=
  match st.current with
  | none => { st with current := some emptyFileEntry }
  | some _ => st

/-- The `Name:` branch (commit_msg.py lines 404-432): push a completed file
with a non-empty name and start a new one, create an entry when none
exists, then set the name. -/
def ptrNameB (st : PTRState) (normalized : List Char) : PTRState :=
  let st2 :=
    match st.current with
    | some cf =>
      if cf.name ≠ "" then { st with files := st.files ++ [cf], current := some emptyFileEntry }
      else st
    | none => { st with current := some emptyFileEntry }
  match st2.current with
  | some cf => { st2 with current := some { cf with name := String.mk (ptrFieldVal normalized "Name:") } }
  | none => st2

/-- The `Type:` branch (commit_msg.py lines 434-437). -/
def ptrTypeB (st : PTRState) (normalized : List Char) : PTRState :=
  match st.current with
  | some cf => { st with current := some { cf with change_type := String.mk (ptrFieldVal normalized "Type:") } }
  | none => st

/-- The `Summary:` branch (commit_msg.py lines 439-442). -/
def ptrSummaryB (st : PTRState) (normalized : List Char) : PTRState :=
  match st.current with
  | some cf => { st with current := some { cf with summary := String.mk (ptrFieldVal normalized "Summary:") } }
  | none => st

/-- The `Lines Added:` branch (commit_msg.py lines 444-447). -/
def ptrLinesAddedB (st : PTRState) (normalized : List Char) : PTRState :=
  match st.current with
  | some cf => { st with current := some { cf with changes := { cf.changes with additions := safe_int_convert (String.mk (ptrFieldVal normalized "Lines Added:")) } } }
  | none => st

/-- The `Lines Deleted:` branch (commit_msg.py lines 449-452). -/
def ptrLinesDeletedB (st : PTRState) (normalized : List Char) : PTRState :=
  match st.current with
  | some cf => { st with current := some { cf with changes := { cf.changes with deletions := safe_int_convert (String.mk (ptrFieldVal normalized "Lines Deleted:")) } } }
  | none => st

/-- The `Modified Functions:` branch (commit_msg.py lines 454-459): a value
other than `none` (case-insensitive) becomes the comma-split, stripped,
non-empty function names. -/
def ptrModFuncsB (st : PTRState) (normalized : List Char) : PTRState :=
  match st.current with
  | some cf =>
    let funcs := ptrFieldVal normalized "Modified Functions:"
    if pyLower funcs ≠ "none".data then
      { st with current := some { cf with changes := { cf.changes with functions_modified := (((splitOnChar ',' funcs).map pyStrip).filter (· ≠ [])).map String.mk } } }
    else st
  | none => st

/-- The `*` bullet branch (commit_msg.py lines 465-468): record a key
change, `normalized.lstrip("*").strip()`. -/
def ptrStarB (st : PTRState) (normalized : List Char) : PTRState :=
  match st.current with
  | some cf => { st with current := some { cf with changes := { cf.changes with key_changes := cf.changes.key_changes ++ [String.mk (pyStrip (normalized.dropWhile (· = '*')))] } } }
  | none => st

/-- The per-file branches of the `parse_text_response` line loop
(commit_msg.py lines 381-468), in the source's order; each of these
branches ends in `continue`, leaving `overall_stats` untouched.  Returns
`some` of the updated state when one of them fired (`Key Changes:` is a
recognised no-op), `none` when the line falls through to the statistics
branches. -/
def ptrStepFile (st : PTRState) (normalized : List Char) : Option PTRState :=
  if startsWith "OVERALL STATISTICS" normalized then some (ptrOverallB st)
  else if startsWith "FILE SUMMARY" normalized then some (ptrFileSummaryB st)
  else if startsWith "Name:" normalized then some (ptrNameB st normalized)
  else if startsWith "Type:" normalized then some (ptrTypeB st normalized)
  else if startsWith "Summary:" normalized then some (ptrSummaryB st normalized)
  else if startsWith "Lines Added:" normalized then some (ptrLinesAddedB st normalized)
  else if startsWith "Lines Deleted:" normalized then some (ptrLinesDeletedB st normalized)
  else if startsWith "Modified Functions:" normalized then some (ptrModFuncsB st normalized)
  else if startsWith "Key Changes:" normalized then some st
  else if startsWith "*" normalized then some (ptrStarB st normalized)
  else none

/-- The overall-statistics branches of the `parse_text_response` line loop
(commit_msg.py lines 470-482), reached only when no per-file branch fired;
a line matching none of them is ignored. -/
def ptrStepStats (stats : OverallStats) (normalized : List Char) : OverallStats :=
  if startsWith "Total Files Changed:" normalized then
    { stats with total_files := safe_int_convert (String.mk (ptrFieldVal normalized "Total Files Changed:")) }
  else if startsWith "Total Additions:" normalized then
    { stats with total_additions := safe_int_convert (String.mk (ptrFieldVal normalized "Total Additions:")) }
  else if startsWith "Total Deletions:" normalized then
    { stats with total_deletions := safe_int_convert (String.mk (ptrFieldVal normalized "Total Deletions:")) }
  else if startsWith "Modified:" normalized then
    { stats with change_types := dictSet stats.change_types "modify" (safe_int_convert (String.mk (ptrFieldVal normalized "Modified:"))) }
  else if startsWith "Added:" normalized then
    { stats with change_types := dictSet stats.change_types "add" (safe_int_convert (String.mk (ptrFieldVal normalized "Added:"))) }
  else if startsWith "Deleted:" normalized then
    { stats with change_types := dictSet stats.change_types "delete" (safe_int_convert (String.mk (ptrFieldVal normalized "Deleted:"))) }
  else stats

/-- One iteration of the `parse_text_response` line loop (commit_msg.py
lines 371-482): strip the line, skip it when empty, normalise it by
stripping leading minus and space characters, then dispatch on the per-file
branches and, when none fired, on the statistics branches. -/
def ptrStep (st : PTRState) (rawLine : List Char) : PTRState :=
  let line := pyStrip rawLine
  if line = [] then st
  else
    let normalized := pyStrip (pyLStrip ['-', ' '] line)
    match ptrStepFile st normalized with
    | some st2 => st2
    | none => { st with stats := ptrStepStats st.stats normalized }

/-- Embedding of `parse_text_response` (commit_msg.py lines 349-488): run the line loop
and append the in-progress file, if any, at the end. -/
def parse_text_response (text : String) : StructuredDiff :=
  let st := (splitLinesS text).foldl ptrStep ptrInit
  let files := match st.current with
    | some cf => st.files ++ [cf]
    | none => st.files
  { files := files, overall_stats := st.stats }

/-- The AI gateway (`AIClient.get_response`): system prompt and user message
to reply text, or a raised error message. -/
def Oracle : Type := String → String → Except String String

/-- The per-file system prompt of `parse_single_file_diff` (commit_msg.py
lines 277-286). -/
def singleFilePrompt (file_name : String) : String :=
  "Parse the git diff for file \x27" ++ file_name ++ "\x27 and provide:\n\n"
    ++ "- Type: <add/modify/delete>\n"
    ++ "- Summary: Brief description of changes (1 sentence)\n"
    ++ "- Lines Added: <number>\n"
    ++ "- Lines Deleted: <number>\n"
    ++ "- Modified Functions: List of changed functions\n"
    ++ "- Key Changes: List 1-3 most important changes\n\n"
    ++ "Be specific and technical. Include actual function names."

/-- Model of the digits-only numeric extraction of `parse_single_file_diff`
(commit_msg.py lines 309-317): join the digit characters and convert, with
a `ValueError` (empty digit string) giving 0. -/
def digitsOnlyInt (l : List Char) : Int :=
  let ds := l.filter pyIsDigit
  if ds.isEmpty then 0 else (digitsToNat ds : Int)

/-- Mutable locals of the `parse_single_file_diff` response loop
(commit_msg.py lines 291-297). -/
structure SFState where
  change_type : String := "modify"
  summary : String := ""
  additions : Int := 0
  deletions : Int := 0
  functions_modified : List String := []
  key_changes : List String := []
deriving Repr, DecidableEq

/-- One iteration of the `parse_single_file_diff` response loop
(commit_msg.py lines 299-328), dispatching on prefixes of the stripped line
in the source's order. -/
def sfStep (st : SFState) (rawLine : List Char) : SFState :=
  let line := pyStrip rawLine
  if line = [] then st
  else if startsWith "Type:" line then
    { st with change_type := String.mk (pyLower (pyStrip (pyAfterFirst "Type:".data line))) }
  else if startsWith "Summary:" line then
    { st with summary := String.mk (pyStrip (pyAfterFirst "Summary:".data line)) }
  else if startsWith "Lines Added:" line then
    { st with additions := digitsOnlyInt (pyStrip (pyAfterFirst "Lines Added:".data line)) }
  else if startsWith "Lines Deleted:" line then
    { st with deletions := digitsOnlyInt (pyStrip (pyAfterFirst "Lines Deleted:".data line)) }
  else if startsWith "Modified Functions:" line then
    let functions_text := pyStrip (pyAfterFirst "Modified Functions:".data line)
    if pyLower functions_text ≠ "none".data ∧ pyLower functions_text ≠ "n/a".data then
      { st with functions_modified := ((splitOnChar ',' functions_text).map pyStrip).map String.mk }
    else st
  else if startsWith "Key Changes:" line then st
  else if startsWith "-" line || startsWith "*" line then
    let key_change := pyStrip (pyLStrip ['-', '*', ' '] line)
    if key_change ≠ [] ∧ pyLower key_change ≠ "none".data ∧ pyLower key_change ≠ "n/a".data then
      { st with key_changes := st.key_changes ++ [String.mk key_change] }
    else st
  else st

/-- Embedding of `parse_single_file_diff` (commit_msg.py lines 269-347): one AI request,
a tolerant line parse of the reply, `none` when the request raised (the
`except` at line 345 returns `None`). -/
def parse_single_file_diff (oracle : Oracle) (file_name file_content : String) :
    Option FileChange :=
  match oracle (singleFilePrompt file_name) file_content with
  | .error _ => none
  | .ok response =>
    let st := (splitLinesS response).foldl sfStep {}
    let key_changes := if st.key_changes = [] ∧ st.summary ≠ "" then [st.summary] else st.key_changes
    some { name := file_name, change_type := st.change_type, summary := st.summary,
           changes := { additions := st.additions, deletions := st.deletions,
                        functions_modified := st.functions_modified,
                        key_changes := key_changes } }

/-- Mutable locals of the file-splitting loop of `parse_large_diff`
(commit_msg.py lines 123-125).  `current_file = ""` models both Python
`None` and an empty extracted name: the source only ever tests truthiness. -/
structure SBFState where
  file_diffs : List (String × String) := []
  current_file : String := ""
  current_content : List String := []
deriving Repr, DecidableEq

/-- One iteration of the file-splitting loop (commit_msg.py lines 127-142):
on a `diff --git` boundary, save the accumulated previous file and extract
the new name from element 1 of the line split on the marker text (falling back to
`unknown_file_<n>` on `IndexError`); then, boundary or not, append the line
to the current file's content when a current file exists. -/
def sbfStep (st : SBFState) (line : String) : SBFState :=
  let st :=
    if startsWith "diff --git" line.data then
      let st :=
        if st.current_file ≠ "" ∧ st.current_content ≠ [] then
          { st with file_diffs := dictSet st.file_diffs st.current_file
                      (String.intercalate "\n" st.current_content),
                    current_content := [] }
        else st
      let newName :=
        match pySplitIdx1 " b/".data line.data with
        | some l => String.mk l
        | none => "unknown_file_" ++ toString st.file_diffs.length
      { st with current_file := newName }
    else st
  if st.current_file ≠ "" then { st with current_content := st.current_content ++ [line] }
  else st

/-- The diff-chunker (`split_by_file` of the spec; commit_msg.py lines
122-146): split a raw diff into per-file fragments keyed by file name,
saving the last accumulated file after the loop. -/
def split_by_file (diff_output : String) : List (String × String) :=
  let st := ((splitLinesS diff_output).map String.mk).foldl sbfStep {}
  if st.current_file ≠ "" ∧ st.current_content ≠ [] then
    dictSet st.file_diffs st.current_file (String.intercalate "\n" st.current_content)
  else st.file_diffs

/-- Extension extraction of `create_fallback_structure` (commit_msg.py
lines 498 and 507): the text after the last dot of the file name, or
`unknown` when the name has no dot. -/
def pyExtOf (f : String) : String :=
  if f.data.contains '.' then String.mk ((splitOnChar '.' f.data).getLastD [])
  else "unknown"

/-- The cleaned file-name list of `create_fallback_structure` (commit_msg.py
line 493): strip each line of the newline-separated file list, keep the
non-empty ones. -/
def fallbackNames (diff_files : String) : List String :=
  ((splitLinesS diff_files).map (fun l => String.mk (pyStrip l))).filter (· ≠ "")

/-- The per-file entry built by `create_fallback_structure` (commit_msg.py
lines 503-515). -/
def fallbackEntry (f : String) : FileChange :=
  { name := f, change_type := "modify",
    summary := "Modified " ++ pyExtOf f ++ " file",
    changes := { additions := 0, deletions := 0, functions_modified := [],
                 key_changes := ["Updated " ++ f] } }

/-- Embedding of `create_fallback_structure` (commit_msg.py lines 490-523): the degraded
structure used when parsing fails or the diff has no file boundaries. -/
def create_fallback_structure (diff_files : String) : StructuredDiff :=
  let files := fallbackNames diff_files
  let file_types := files.foldl (fun m f => dictIncr m (pyExtOf f)) []
  { files := files.map fallbackEntry,
    overall_stats := { total_files := (files.length : Int), total_additions := 0,
                       total_deletions := 0,
                       change_types := [("modify", (files.length : Int)), ("add", 0), ("delete", 0)],
                       file_types := file_types } }

/-- The minimal entry recorded by `parse_large_diff` when
`parse_single_file_diff` returned `None` (commit_msg.py lines 191-201). -/
def minimalFileChange (nm : String) : FileChange :=
  { name := nm, change_type := "modify", summary := "Modified " ++ nm,
    changes := { additions := 0, deletions := 0, functions_modified := [],
                 key_changes := ["Updated " ++ nm] } }

/-- The entry recorded by the `except` branch of the `as_completed` loop
(commit_msg.py lines 203-215), for an exception escaping the per-file task.
`parse_single_file_diff` catches AI errors itself and returns `None`, so in
this model the task never raises and this entry is never produced by
`parse_large_diff`. -/
def raisedFileChange (nm msg : String) : FileChange :=
  { name := nm, change_type := "modify", summary := "Modified " ++ nm,
    changes := { additions := 0, deletions := 0, functions_modified := [],
                 key_changes := ["Error processing: " ++ msg] } }

/-- The handling of one completed per-file task (commit_msg.py lines
183-202): a real result is kept, a `None` result degrades to the minimal
entry. -/
def processFile (oracle : Oracle) (nm content : String) : FileChange :=
  match parse_single_file_diff oracle nm content with
  | some r => r
  | none => minimalFileChange nm

/-- The result-combination step of `parse_large_diff` (commit_msg.py lines
217-236): totals are summed over the per-file entries, change types counted
into a dict seeded with modify/add/delete, `total_files` is the number of
entries. -/
def combineFileResults (file_results : List FileChange) : StructuredDiff :=
  let total_additions := (file_results.map (fun f => f.changes.additions)).sum
  let total_deletions := (file_results.map (fun f => f.changes.deletions)).sum
  let change_types := file_results.foldl (fun m f => dictIncr m f.change_type)
    [("modify", 0), ("add", 0), ("delete", 0)]
  { files := file_results,
    overall_stats := { total_files := (file_results.length : Int),
                       total_additions := total_additions,
                       total_deletions := total_deletions,
                       change_types := change_types } }

/-- The high-level summary prompt (commit_msg.py lines 242-253): totals,
then the name and summary of each of the first five files that have a
non-empty summary. -/
def summaryPrompt (file_results : List FileChange) : String :=
  let base := "Generate a high-level summary of these changes:\n\n"
    ++ "Total Files: " ++ toString file_results.length ++ "\n"
    ++ "Total Additions: " ++ toString (file_results.map (fun f => f.changes.additions)).sum ++ "\n"
    ++ "Total Deletions: " ++ toString (file_results.map (fun f => f.changes.deletions)).sum ++ "\n\n"
    ++ "Key Changes:\n"
  (file_results.take 5).foldl
    (fun acc f => if f.summary ≠ "" then acc ++ "- " ++ f.name ++ ": " ++ f.summary ++ "\n" else acc)
    base

/-- Embedding of `parse_large_diff` (commit_msg.py lines 120-267), with the number of AI
requests issued.  The thread-pool chunking (lines 156-215) partitions the
same per-file tasks for scheduling only; each discovered file costs exactly
one request.  When more than ten files were discovered, one extra summary
request is issued (lines 239-265); its failure is swallowed and the summary
omitted.  With no discovered file boundaries the degraded fallback is
returned without any request (lines 149-151). -/
def parse_large_diff (oracle : Oracle) (diff_output diff_files : String) :
    StructuredDiff × Nat :=
  let fds := split_by_file diff_output
  if fds = [] then (create_fallback_structure diff_files, 0)
  else
    let file_results := fds.map (fun p => processFile oracle p.1 p.2)
    let combined := combineFileResults file_results
    if file_results.length > 10 then
      match oracle (summaryPrompt file_results) "" with
      | .ok s => ({ combined with high_level_summary := some (pyStripS s) }, file_results.length + 1)
      | .error _ => (combined, file_results.length + 1)
    else (combined, file_results.length)

/-- Embedding of `parse_diff_to_structured` (commit_msg.py lines 53-118), with the number
of AI requests issued.  Diffs of more than 10,000 characters go to
`parse_large_diff`.  The small-diff branch (lines 97-105) calls
`retry_ai_request(...)` with `args.max_retries`; neither `retry_ai_request`
nor `args` is defined or imported in `commit_msg.py`, so evaluating the call
raises `NameError` before any request is issued, and the handler at lines
111-118 returns `create_fallback_structure(diff_files)`. -/
def parse_diff_to_structured (oracle : Oracle) (diff_output diff_files : String) :
    StructuredDiff × Nat :=
  if diff_output.length > 10000 then parse_large_diff oracle diff_output diff_files
  else (create_fallback_structure diff_files, 0)

/-- Observable trace of one run of `retry_ai_request`: its outcome (`some
(.ok a)` a returned value, `some (.error e)` the re-raised last error,
`none` the `raise None`/`TypeError` path hit when `max_retries = 0`), the
number of times the wrapped function was invoked, and the successive
`time.sleep` durations in seconds. -/
structure RetryTrace (ε α : Type) where
  outcome : Option (Except ε α)
  calls : Nat
  sleeps : List Nat

/-- The retry loop of `retry_ai_request` (progress_report.py lines 231-264).
`f k` is the outcome of invocation number `k` (a timeout is just one kind of
error: the source converts both executor timeouts and exceptions into the
same retry path).  `remaining` counts the attempts still allowed; a sleep of
`delay * 2 ^ attempt` happens only when the failed attempt was not the last
one (`attempt < max_retries - 1`). -/
def retryAux {ε α : Type} (f : Nat → Except ε α) (delay : Nat) :
    (attempt remaining : Nat) → Option ε → RetryTrace ε α
  | _, 0, lastExc => ⟨lastExc.map Except.error, 0, []⟩
  | attempt, remaining + 1, _ =>
    match f attempt with
    | .ok a => ⟨some (.ok a), 1, []⟩
    | .error e =>
      let rest := retryAux f delay (attempt + 1) remaining (some e)
      if remaining > 0 then
        ⟨rest.outcome, rest.calls + 1, delay * 2 ^ attempt :: rest.sleeps⟩
      else ⟨rest.outcome, rest.calls + 1, rest.sleeps⟩

/-- Embedding of `retry_ai_request` (progress_report.py lines 209-264): up to
`max_retries` invocations with exponential backoff, re-raising the last
error after the final failure. -/
def retry_ai_request {ε α : Type} (f : Nat → Except ε α) (max_retries initial_delay : Nat) :
    RetryTrace ε α :=
  retryAux f initial_delay 0 max_retries none

/-- One per-commit analysis (`parsed_data` of `parse_commit`,
progress_report.py lines 320-326), with the source's default values. -/
structure CommitAnalysis where
  summary : String := ""
  type : String := "unknown"
  scope : String := "unknown"
  files_changed : List String := []
  impact : String := "LOW"
deriving Repr, DecidableEq

/-- One iteration of the `parse_commit` response loop (progress_report.py
lines 330-344), dispatching on prefixes of the stripped line in the
source's order; field values are `line.split(':', 1)[1].strip()`. -/
def pcStep (st : CommitAnalysis) (rawLine : List Char) : CommitAnalysis :=
  let line := pyStrip rawLine
  if startsWith "Summary:" line then
    { st with summary := String.mk (pyStrip (pyAfterFirst [':'] line)) }
  else if startsWith "Type:" line then
    { st with type := String.mk (pyStrip (pyAfterFirst [':'] line)) }
  else if startsWith "Scope:" line then
    { st with scope := String.mk (pyStrip (pyAfterFirst [':'] line)) }
  else if startsWith "Files Changed:" line then st
  else if startsWith "- " line then
    { st with files_changed := st.files_changed ++ [String.mk (pyStrip (line.drop 2))] }
  else if startsWith "Impact:" line then
    { st with impact := String.mk (pyStrip (pyAfterFirst [':'] line)) }
  else st

/-- The response-parsing part of `parse_commit` (progress_report.py lines
319-346): fold the line parser over the reply, starting from the default
analysis. -/
def parse_commit_response (response_text : String) : CommitAnalysis :=
  (splitLinesS response_text).foldl pcStep {}

/-- The grouping key of a commit: its type and scope joined by a slash
(progress_report.py line 433). -/
def commitGroupKey (c : CommitAnalysis) : String := c.type ++ "/" ++ c.scope

/-- Python `grouped.setdefault(k, []).append(x)` on an insertion-ordered
dict (progress_report.py lines 434-438). -/
def dictAppend {α : Type} (m : List (String × List α)) (k : String) (x : α) :
    List (String × List α) :=
  match m with
  | [] => [(k, [x])]
  | (k', xs) :: rest => if k' = k then (k', xs ++ [x]) :: rest else (k', xs) :: dictAppend rest k x

/-- The per-group stable sort by the original-index key
(progress_report.py lines 441-442).  Python `list.sort` is a stable sort by
the key; insertion sort is stable, and the keys (positions in
`parsed_commits`) are pairwise distinct, so every stable sort produces this
list. -/
def sortByOriginalIndex (l : List (CommitAnalysis × Nat)) : List (CommitAnalysis × Nat) :=
  l.insertionSort (fun a b => a.2 ≤ b.2)

/-- The grouping step of `create_git_progress_report` (progress_report.py
lines 430-442).  `parsed` is `parsed_commits` as collected from the
`as_completed` loop, i.e. in completion order; each commit's
`original_index` is its position `i` in that list (line 437), and each group
is then sorted by `original_index`. -/
def groupCommits (parsed : List CommitAnalysis) :
    List (String × List (CommitAnalysis × Nat)) :=
  let grouped := parsed.enum.foldl
    (fun m p => dictAppend m (commitGroupKey p.2) (p.2, p.1)) []
  grouped.map (fun g => (g.1, sortByOriginalIndex g.2))

/-- The `(commit, original_index)` pairs in list order: commit `parsed[i]`
carries index `i`. -/
def indexedCommits (parsed : List CommitAnalysis) : List (CommitAnalysis × Nat) :=
  parsed.enum.map (fun p => (p.2, p.1))

/-- The normalisation `parse_text_response` applies to each raw line before
prefix dispatch: `line.strip().lstrip("- ").strip()`. -/
def ptrNormalize (rawLine : List Char) : List Char :=
  pyStrip (pyLStrip ['-', ' '] (pyStrip rawLine))

/-- Whether a raw line triggers any branch of the `parse_text_response`
loop: non-empty after stripping, and its normalisation starts with one of
the recognised field prefixes. -/
def ptrRecognizes (rawLine : List Char) : Bool :=
  pyStrip rawLine ≠ [] &&
    (startsWith "OVERALL STATISTICS" (ptrNormalize rawLine)
      || startsWith "FILE SUMMARY" (ptrNormalize rawLine)
      || startsWith "Name:" (ptrNormalize rawLine)
      || startsWith "Type:" (ptrNormalize rawLine)
      || startsWith "Summary:" (ptrNormalize rawLine)
      || startsWith "Lines Added:" (ptrNormalize rawLine)
      || startsWith "Lines Deleted:" (ptrNormalize rawLine)
      || startsWith "Modified Functions:" (ptrNormalize rawLine)
      || startsWith "Key Changes:" (ptrNormalize rawLine)
      || startsWith "*" (ptrNormalize rawLine)
      || startsWith "Total Files Changed:" (ptrNormalize rawLine)
      || startsWith "Total Additions:" (ptrNormalize rawLine)
      || startsWith "Total Deletions:" (ptrNormalize rawLine)
      || startsWith "Modified:" (ptrNormalize rawLine)
      || startsWith "Added:" (ptrNormalize rawLine)
      || startsWith "Deleted:" (ptrNormalize rawLine))

/-- The stats-consistency invariant of a structured diff: `total_files`
counts the file entries, the totals are the per-file sums, and the
change-type counters add up to the number of files. -/
def statsConsistent (d : StructuredDiff) : Prop :=
  d.overall_stats.total_files = (d.files.length : Int)
  ∧ d.overall_stats.total_additions = (d.files.map (fun f => f.changes.additions)).sum
  ∧ d.overall_stats.total_deletions = (d.files.map (fun f => f.changes.deletions)).sum
  ∧ (d.overall_stats.change_types.map Prod.snd).sum = (d.files.length : Int)

/-!  ### Concrete fixtures used by the closed theorems  -/

/-- A well-formed model reply used to show what the small-diff path would
have parsed had its AI request been issued. -/
def c1Response : String := "FILE SUMMARY\nName: g.py"

/-- An always-succeeding gateway returning `c1Response`. -/
def c1Oracle : Oracle := fun _ _ => Except.ok c1Response

/-- A staged diff of 29 characters, far under the 10,000-character
chunking threshold. -/
def c1SmallDiff : String := "diff --git a/f.py b/f.py\n+pass"

/-- The chronologically older of two analysed commits. -/
def cOld : CommitAnalysis := { summary := "older commit" }

/-- The chronologically newer of two analysed commits. -/
def cNew : CommitAnalysis := { summary := "newer commit" }

/-- A model reply whose `Lines Added:` field carries a minus sign. -/
def c3NegResponse : String := "FILE SUMMARY\nName: a\nLines Added: -3"

/-- An always-succeeding gateway used to exercise `parse_single_file_diff`. -/
def c3Oracle : Oracle := fun _ _ => Except.ok "Summary: small tweak\nLines Added: 4"

/-- The entry `parse_single_file_diff` produces from the reply of `c3Oracle`. -/
def c3Parsed : FileChange :=
  { name := "a.py", change_type := "modify", summary := "small tweak",
    changes := { additions := 4, deletions := 0, functions_modified := [],
                 key_changes := ["small tweak"] } }

/-- An attempt sequence that fails twice and then succeeds. -/
def c4fTwoFail : Nat → Except String Nat :=
  fun k => if k < 2 then Except.error ("failure " ++ toString k) else Except.ok 42

/-- An attempt sequence that always fails, with `c4errs k` the error of
invocation `k`. -/
def c4errs : Nat → String := fun k => "failure " ++ toString k

/-- The always-failing attempt sequence built from `c4errs`. -/
def c4fAllFail : Nat → Except String Nat := fun k => Except.error (c4errs k)

/-- A two-file staged diff, split by `split_by_file` into fragments for
`a.py` and `b.py`. -/
def c6Diff : String := "diff --git a/a.py b/a.py\n+x\ndiff --git a/b.py b/b.py\n+y"

/-- A gateway that raises `boom` for the fragment of file a.py and answers
normally for every other request. -/
def c6Oracle : Oracle := fun _ msg =>
  if msg = "diff --git a/a.py b/a.py\n+x" then Except.error "boom"
  else Except.ok "Type: modify\nSummary: tweaked b"

/-!  ## Helper lemmas  -/

theorem dictIncr_snd_sum (m : List (String × Int)) (k : String) :
    ((dictIncr m k).map Prod.snd).sum = (m.map Prod.snd).sum + 1 := by
  induction m with
  | nil => simp [dictIncr]
  | cons p rest ih =>
    obtain ⟨k', v⟩ := p
    by_cases h : k' = k <;> simp [dictIncr, h, ih] <;> ring

theorem foldl_dictIncr_snd_sum (key : FileChange → String) (rs : List FileChange) :
    ∀ m : List (String × Int),
      ((rs.foldl (fun m f => dictIncr m (key f)) m).map Prod.snd).sum
        = (m.map Prod.snd).sum + rs.length := by
  induction rs with
  | nil => intro m; simp
  | cons f rest ih =>
    intro m
    simp only [List.foldl_cons, ih (dictIncr m (key f)), dictIncr_snd_sum, List.length_cons]
    push_cast
    ring

theorem safe_int_convert_getD (v : String) :
    safe_int_convert v = (pyIntParse (safeIntCleaned v)).getD 0 := by
  unfold safe_int_convert
  by_cases h : (safeIntCleaned v).isEmpty
  · have : safeIntCleaned v = [] := by simpa [List.isEmpty_iff] using h
    simp [h, this, pyIntParse]
  · simp only [h, if_false]
    cases pyIntParse (safeIntCleaned v) <;> simp

/-!  ## Claim theorems  -/

/-- C9 (counterexample): on `"3-1"` the code keeps both digits and the
inner minus sign, `int("3-1")` raises, and the result is 0 — while the
claim's cleaning rule ("only digits and an optional leading minus sign")
would keep `"31"` and return 31. -/
theorem safe_int_convert_not_leading_minus_only :
    safe_int_convert "3-1" = 0 ∧ safe_int_convert_claim "3-1" = 31
      ∧ safe_int_convert "3-1" ≠ safe_int_convert_claim "3-1" := by decide

/-- C9 (amended): `safe_int_convert` keeps every digit and every minus
character wherever it occurs and then applies Python `int` conversion,
returning 0 when the kept string is empty or not a valid integer literal;
in particular `"12 lines" ↦ 12`, `"none" ↦ 0`, `"-3" ↦ -3`. -/
theorem safe_int_convert_characterization :
    safe_int_convert "12 lines" = 12 ∧ safe_int_convert "none" = 0
      ∧ safe_int_convert "-3" = -3
      ∧ ∀ v : String, safe_int_convert v = (pyIntParse (safeIntCleaned v)).getD 0 :=
  ⟨by decide, by decide, by decide, safe_int_convert_getD⟩

/-- C7: `create_fallback_structure` maps every non-empty stripped name of
the newline-separated file list to one entry with `change_type = "modify"`,
zero additions/deletions and `key_changes = ["Updated <name>"]`, and
`total_files` is the number of those names. -/
theorem create_fallback_structure_spec (diff_files : String) :
    (create_fallback_structure diff_files).files
        = (fallbackNames diff_files).map fallbackEntry
      ∧ (create_fallback_structure diff_files).overall_stats.total_files
        = ((fallbackNames diff_files).length : Int)
      ∧ ((create_fallback_structure diff_files).files.all fun fc =>
          fc.change_type == "modify" && fc.changes.additions == 0
            && fc.changes.deletions == 0
            && fc.changes.key_changes == ["Updated " ++ fc.name]) = true := by
  refine ⟨rfl, rfl, ?_⟩
  show ((fallbackNames diff_files).map fallbackEntry).all _ = true
  rw [List.all_eq_true]
  intro fc hfc
  obtain ⟨f, hf, rfl⟩ := List.mem_map.mp hfc
  simp [fallbackEntry]

theorem combineFileResults_statsConsistent (rs : List FileChange) :
    statsConsistent (combineFileResults rs) := by
  refine ⟨rfl, rfl, rfl, ?_⟩
  show ((rs.foldl (fun m f => dictIncr m f.change_type)
      [("modify", 0), ("add", 0), ("delete", 0)]).map Prod.snd).sum = (rs.length : Int)
  rw [foldl_dictIncr_snd_sum (fun f => f.change_type) rs]
  simp

theorem create_fallback_structure_statsConsistent (diff_files : String) :
    statsConsistent (create_fallback_structure diff_files) := by
  refine ⟨by simp [create_fallback_structure], ?_, ?_, ?_⟩
  · show (0 : Int) = (((fallbackNames diff_files).map fallbackEntry).map
      (fun f => f.changes.additions)).sum
    rw [List.map_map]
    symm
    apply List.sum_eq_zero
    intro x hx
    obtain ⟨f, _, rfl⟩ := List.mem_map.mp hx
    rfl
  · show (0 : Int) = (((fallbackNames diff_files).map fallbackEntry).map
      (fun f => f.changes.deletions)).sum
    rw [List.map_map]
    symm
    apply List.sum_eq_zero
    intro x hx
    obtain ⟨f, _, rfl⟩ := List.mem_map.mp hx
    rfl
  · simp [create_fallback_structure]

/-- C10: the combined structured diff built by the chunked path satisfies
the aggregate-consistency invariant for every list of per-file results
(hence for every parallel completion order), and every structured diff
`parse_large_diff` returns — combined or degraded fallback — satisfies it
as well. -/
theorem combine_results_stats_consistent :
    (∀ rs : List FileChange, statsConsistent (combineFileResults rs))
      ∧ ∀ (oracle : Oracle) (diff_output diff_files : String),
          statsConsistent (parse_large_diff oracle diff_output diff_files).1 := by
  refine ⟨combineFileResults_statsConsistent, ?_⟩
  intro oracle diff_output diff_files
  unfold parse_large_diff
  by_cases h : split_by_file diff_output = []
  · simp only [h, if_pos rfl]
    exact create_fallback_structure_statsConsistent diff_files
  · simp only [h, if_neg h]
    set rs := (split_by_file diff_output).map (fun p => processFile oracle p.1 p.2) with hrs
    by_cases hlen : rs.length > 10
    · simp only [hlen, if_pos hlen]
      cases oracle (summaryPrompt rs) "" with
      | ok s =>
        have := combineFileResults_statsConsistent rs
        exact this
      | error e => exact combineFileResults_statsConsistent rs
    · simp only [hlen, if_neg hlen]
      exact combineFileResults_statsConsistent rs

/-- C1 (code bug): for a 29-character staged diff — far under the chunking
threshold — `parse_diff_to_structured` issues zero AI requests and returns
`create_fallback_structure(diff_files)`, not the line-oriented parse of the
model's reply: line 98 of commit_msg.py names `retry_ai_request` and
`args`, neither defined nor imported in that module, so the small-diff
branch raises `NameError` before any request and the handler falls back.
The parse of the reply the gateway would have produced names file `g.py`;
the fallback instead names `f.py` from the external file list. -/
theorem parse_diff_small_diff_issues_no_ai_call :
    parse_diff_to_structured c1Oracle c1SmallDiff "f.py"
        = (create_fallback_structure "f.py", 0)
      ∧ (parse_text_response c1Response).files.map (fun fc => fc.name) = ["g.py"]
      ∧ (create_fallback_structure "f.py").files.map (fun fc => fc.name) = ["f.py"] := by
  decide

/-- C2 (code bug): with chronological (oldest-first) commits
`[cOld, cNew]` completing in the order `[cNew, cOld]`, the grouping step
assigns `original_index 0` to `cNew` — its position in the
completion-ordered `parsed_commits` list — although its position in the
chronological list before parallel dispatch is 1; the sorted group
therefore lists `cNew` before `cOld`, the reverse of chronological order. -/
theorem groupCommits_original_index_is_completion_order :
    groupCommits [cNew, cOld] = [("unknown/unknown", [(cNew, 0), (cOld, 1)])]
      ∧ indexedCommits [cOld, cNew] = [(cOld, 0), (cNew, 1)]
      ∧ cNew ≠ cOld := by decide

/-- C3 (counterexample): a reply whose `Lines Added:` field is `-3` makes
`parse_text_response` record a negative `additions` (its numeric field goes
through `safe_int_convert`, which keeps minus signs), refuting
"additions >= 0 for every FileChange produced by the diff parsers". -/
theorem parse_text_response_negative_additions :
    (parse_text_response c3NegResponse).files.map (fun fc => (fc.name, fc.changes.additions))
        = [("a", -3)]
      ∧ ((parse_text_response c3NegResponse).files.all
          (fun fc => decide (0 ≤ fc.changes.additions))) = false := by decide

/-- C6 (counterexample): when the AI request for the fragment of file a.py
raises `boom`, the recorded key change of that entry is `"Updated a.py"` — the error
text appears nowhere — because `parse_single_file_diff` catches the error
and returns `None`, so the `Error processing:` branch of the collection
loop is not taken; the build still completes and `b.py` is unaffected. -/
theorem failed_file_key_change_not_error_text :
    ((parse_large_diff c6Oracle c6Diff "").1.files.map
        (fun fc => (fc.name, fc.change_type, fc.summary, fc.changes.key_changes)))
        = [("a.py", "modify", "Modified a.py", ["Updated a.py"]),
           ("b.py", "modify", "tweaked b", ["tweaked b"])]
      ∧ ((parse_large_diff c6Oracle c6Diff "").1.files.all
          (fun fc => !(fc.changes.key_changes.any
            (fun k => k == "boom" || k == "Error processing: boom")))) = true := by decide

theorem dictAppend_flatten {α : Type} (m : List (String × List α)) (k : String) (x : α) :
    (((dictAppend m k x).map Prod.snd).flatten).Perm ((m.map Prod.snd).flatten ++ [x]) := by
  induction m with
  | nil => simp [dictAppend]
  | cons p rest ih =>
    obtain ⟨k', xs⟩ := p
    by_cases h : k' = k
    · subst h
      simp only [dictAppend, if_true, eq_self_iff_true, List.map_cons, List.flatten_cons,
        List.append_assoc]
      exact List.Perm.append_left xs List.perm_append_comm
    · simp only [dictAppend, if_neg h, List.map_cons, List.flatten_cons, List.append_assoc]
      exact List.Perm.append_left xs ih

theorem gather_flatten (ps : List (Nat × CommitAnalysis)) :
    ∀ m : List (String × List (CommitAnalysis × Nat)),
      (((ps.foldl (fun m p => dictAppend m (commitGroupKey p.2) (p.2, p.1)) m).map
          Prod.snd).flatten).Perm
        ((m.map Prod.snd).flatten ++ ps.map (fun p => (p.2, p.1))) := by
  induction ps with
  | nil => intro m; simp
  | cons p rest ih =>
    intro m
    simp only [List.foldl_cons, List.map_cons]
    refine (ih (dictAppend m (commitGroupKey p.2) (p.2, p.1))).trans ?_
    have h1 := List.Perm.append_right (rest.map fun p => (p.2, p.1))
      (dictAppend_flatten m (commitGroupKey p.2) (p.2, p.1))
    refine h1.trans ?_
    simp [List.append_assoc]

theorem sort_flatten (gs : List (String × List (CommitAnalysis × Nat))) :
    (((gs.map (fun g => (g.1, sortByOriginalIndex g.2))).map Prod.snd).flatten).Perm
      ((gs.map Prod.snd).flatten) := by
  induction gs with
  | nil => simp
  | cons g rest ih =>
    simp only [List.map_cons, List.flatten_cons]
    exact (List.perm_insertionSort _ _).append ih

/-- C8: concatenating all groups' commits after grouping by
`"{type}/{scope}"` and per-group sorting by `original_index` is a
permutation of the indexed input commits: every parsed commit appears
exactly once, none duplicated or dropped. -/
theorem groupCommits_partition (parsed : List CommitAnalysis) :
    (((groupCommits parsed).map Prod.snd).flatten).Perm (indexedCommits parsed) := by
  unfold groupCommits indexedCommits
  refine (sort_flatten _).trans ?_
  simpa using gather_flatten parsed.enum []

theorem retryAux_step_error {α : Type} (f : Nat → Except String α) (d att rem : Nat)
    (prev : Option String) (e : String) (h : f att = Except.error e) :
    retryAux f d att (rem + 1) prev
      = if 0 < rem then
          ⟨(retryAux f d (att + 1) rem (some e)).outcome,
           (retryAux f d (att + 1) rem (some e)).calls + 1,
           d * 2 ^ att :: (retryAux f d (att + 1) rem (some e)).sleeps⟩
        else
          ⟨(retryAux f d (att + 1) rem (some e)).outcome,
           (retryAux f d (att + 1) rem (some e)).calls + 1,
           (retryAux f d (att + 1) rem (some e)).sleeps⟩ := by
  conv_lhs => rw [retryAux]
  rw [h]

theorem retryAux_allfail {α : Type} (f : Nat → Except String α) (es : Nat → String) (d : Nat) :
    ∀ (rem att : Nat) (prev : Option String), 1 ≤ rem →
      (∀ k, att ≤ k → k < att + rem → f k = Except.error (es k)) →
      retryAux f d att rem prev
        = ⟨some (Except.error (es (att + rem - 1))), rem,
           (List.range (rem - 1)).map (fun k => d * 2 ^ (att + k))⟩ := by
  intro rem
  induction rem with
  | zero => intro att prev h; exact absurd h (by omega)
  | succ r ih =>
    intro att prev _ hf
    have hatt : f att = Except.error (es att) := hf att le_rfl (by omega)
    cases r with
    | zero =>
      simp [retryAux, hatt]
    | succ r' =>
      have hrec := ih (att + 1) (some (es att)) (by omega)
        (fun k hk1 hk2 => hf k (by omega) (by omega))
      rw [retryAux_step_error f d att (r' + 1) prev (es att) hatt, if_pos (by omega), hrec]
      have harith : att + 1 + (r' + 1) - 1 = att + (r' + 1 + 1) - 1 := by omega
      have hsleeps : d * 2 ^ att :: (List.range r').map (fun k => d * 2 ^ (att + 1 + k))
          = (List.range (r' + 1)).map (fun k => d * 2 ^ (att + k)) := by
        rw [List.range_succ_eq_map, List.map_cons, List.map_map]
        refine congrArg₂ _ (by ring_nf) ?_
        apply List.map_congr_left
        intro k _
        have : att + 1 + k = att + Nat.succ k := by omega
        simp [Function.comp, this]
      simp [harith, hsleeps]

/-- C4: with `max_retries = 3` and `initial_delay = 1`, a function failing
twice and then succeeding is invoked exactly 3 times with sleeps of 1 s and
2 s before the retries, and its successful result is returned; and for any
`max_retries ≥ 1`, when every attempt fails (timeouts are errors like any
other), the wrapped function is invoked `max_retries` times, the backoff
before retry `k` is `initial_delay * 2^(k-1)`, and the last error is
re-raised. -/
theorem retry_ai_request_backoff :
    (∀ (α : Type) (f : Nat → Except String α) (e0 e1 : String) (a : α),
      f 0 = Except.error e0 → f 1 = Except.error e1 → f 2 = Except.ok a →
        (retry_ai_request f 3 1).outcome = some (Except.ok a)
          ∧ (retry_ai_request f 3 1).calls = 3
          ∧ (retry_ai_request f 3 1).sleeps = [1, 2])
      ∧ (∀ (α : Type) (f : Nat → Except String α) (es : Nat → String) (mr d : Nat),
        1 ≤ mr → (∀ k, k < mr → f k = Except.error (es k)) →
          (retry_ai_request f mr d).outcome = some (Except.error (es (mr - 1)))
            ∧ (retry_ai_request f mr d).calls = mr
            ∧ (retry_ai_request f mr d).sleeps
              = (List.range (mr - 1)).map (fun k => d * 2 ^ k)) := by
  constructor
  · intro α f e0 e1 a h0 h1 h2
    refine ⟨?_, ?_, ?_⟩ <;> simp [retry_ai_request, retryAux, h0, h1, h2]
  · intro α f es mr d hmr hf
    have h := retryAux_allfail f es d mr 0 none hmr (by simpa using hf)
    rw [retry_ai_request, h]
    refine ⟨by simp, rfl, by simp⟩

theorem digitsOnlyInt_nonneg (l : List Char) : 0 ≤ digitsOnlyInt l := by
  simp only [digitsOnlyInt]
  split
  · exact le_refl 0
  · exact Int.ofNat_nonneg _

theorem pyIntParse_nonneg (l : List Char) (h : '-' ∉ l) (n : Int)
    (hp : pyIntParse l = some n) : 0 ≤ n := by
  unfold pyIntParse at hp
  split at hp
  · exact absurd hp (by simp)
  · exact absurd (List.mem_cons_self _ _) h
  · split at hp
    · obtain rfl : (digitsToNat _ : Int) = n := by simpa using hp
      exact Int.ofNat_nonneg _
    · exact absurd hp (by simp)

theorem safe_int_convert_nonneg (v : String) (h : '-' ∉ v.data) : 0 ≤ safe_int_convert v := by
  unfold safe_int_convert
  by_cases he : (safeIntCleaned v).isEmpty
  · simp [he]
  · simp only [he, if_false]
    have hnm : '-' ∉ safeIntCleaned v := by
      intro hc
      exact h (List.mem_filter.mp hc).1
    cases hm : pyIntParse (safeIntCleaned v) with
    | none => exact le_refl 0
    | some n => exact pyIntParse_nonneg _ hnm n hm

theorem sfStep_nonneg (st : SFState) (l : List Char) (ha : 0 ≤ st.additions)
    (hd : 0 ≤ st.deletions) :
    0 ≤ (sfStep st l).additions ∧ 0 ≤ (sfStep st l).deletions := by
  simp only [sfStep]
  repeat' split
  all_goals first
    | exact ⟨ha, hd⟩
    | exact ⟨digitsOnlyInt_nonneg _, hd⟩
    | exact ⟨ha, digitsOnlyInt_nonneg _⟩

theorem sfFold_nonneg (lines : List (List Char)) :
    ∀ st : SFState, 0 ≤ st.additions → 0 ≤ st.deletions →
      0 ≤ (lines.foldl sfStep st).additions ∧ 0 ≤ (lines.foldl sfStep st).deletions := by
  induction lines with
  | nil => intro st ha hd; exact ⟨ha, hd⟩
  | cons l rest ih =>
    intro st ha hd
    obtain ⟨ha', hd'⟩ := sfStep_nonneg st l ha hd
    exact ih (sfStep st l) ha' hd'

theorem parse_single_file_nonneg (oracle : Oracle) (nm content : String) (fc : FileChange)
    (h : parse_single_file_diff oracle nm content = some fc) :
    0 ≤ fc.changes.additions ∧ 0 ≤ fc.changes.deletions := by
  unfold parse_single_file_diff at h
  cases ho : oracle (singleFilePrompt nm) content with
  | error e => rw [ho] at h; exact absurd h (by simp)
  | ok resp =>
    rw [ho] at h
    simp only [Option.some.injEq] at h
    subst h
    exact sfFold_nonneg (splitLinesS resp) {} (by decide) (by decide)

/-- C3 (amended): every FileChange produced by `parse_single_file_diff` has
`additions ≥ 0` and `deletions ≥ 0` — its numeric extraction keeps digits
only, defaulting to 0 when nothing is parseable — and `safe_int_convert`,
the numeric extraction of `parse_text_response`, is non-negative whenever
the field value contains no minus character; a minus sign in the model
output can, however, make `parse_text_response` record negative counts. -/
theorem diff_parser_counts_nonneg :
    (∀ (oracle : Oracle) (nm content : String) (fc : FileChange),
      parse_single_file_diff oracle nm content = some fc →
        0 ≤ fc.changes.additions ∧ 0 ≤ fc.changes.deletions)
      ∧ (∀ v : String, '-' ∉ v.data → 0 ≤ safe_int_convert v) :=
  ⟨parse_single_file_nonneg, safe_int_convert_nonneg⟩

/-- Witness for C3 at a concrete reply and field value. -/
theorem diff_parser_counts_nonneg_witness :
    (0 ≤ c3Parsed.changes.additions ∧ 0 ≤ c3Parsed.changes.deletions)
      ∧ 0 ≤ safe_int_convert "12" :=
  ⟨diff_parser_counts_nonneg.1 c3Oracle "a.py" "diff body" c3Parsed (by decide),
   diff_parser_counts_nonneg.2 "12" (by decide)⟩

/-- Witness for C4 at concrete attempt sequences. -/
theorem retry_ai_request_backoff_witness :
    ((retry_ai_request c4fTwoFail 3 1).outcome = some (Except.ok 42)
      ∧ (retry_ai_request c4fTwoFail 3 1).calls = 3
      ∧ (retry_ai_request c4fTwoFail 3 1).sleeps = [1, 2])
      ∧ ((retry_ai_request c4fAllFail 3 1).outcome = some (Except.error (c4errs 2))
        ∧ (retry_ai_request c4fAllFail 3 1).calls = 3
        ∧ (retry_ai_request c4fAllFail 3 1).sleeps = (List.range 2).map (fun k => 1 * 2 ^ k)) :=
  ⟨retry_ai_request_backoff.1 Nat c4fTwoFail "failure 0" "failure 1" 42 rfl rfl rfl,
   retry_ai_request_backoff.2 Nat c4fAllFail c4errs 3 1 (by omega) (fun k _ => rfl)⟩

theorem parse_large_diff_files_eq (oracle : Oracle) (diff_output diff_files : String)
    (hne : split_by_file diff_output ≠ []) :
    (parse_large_diff oracle diff_output diff_files).1.files
      = (split_by_file diff_output).map (fun p => processFile oracle p.1 p.2) := by
  unfold parse_large_diff
  simp only [if_neg hne]
  by_cases hlen :
      ((split_by_file diff_output).map (fun p => processFile oracle p.1 p.2)).length > 10
  · simp only [if_pos hlen]
    cases oracle (summaryPrompt ((split_by_file diff_output).map
      (fun p => processFile oracle p.1 p.2))) "" <;> rfl
  · simp only [if_neg hlen]
    rfl

/-- C6 (amended): a failing per-file AI request never aborts the chunked
build: the build still produces one entry per discovered file, and the
failed file is recorded as the minimal FileChange — `change_type "modify"`,
summary `"Modified <name>"`, key change `"Updated <name>"` — because
`parse_single_file_diff` catches the error itself and returns `None`; the
`"Error processing: <error>"` text would be recorded only if an exception
escaped the per-file task.  Every other file's entry is
`processFile oracle`, computed from its own request alone. -/
theorem per_file_failure_degrades_minimal (oracle : Oracle)
    (diff_output diff_files nm content msg : String)
    (hmem : (nm, content) ∈ split_by_file diff_output)
    (herr : oracle (singleFilePrompt nm) content = Except.error msg) :
    minimalFileChange nm ∈ (parse_large_diff oracle diff_output diff_files).1.files
      ∧ (parse_large_diff oracle diff_output diff_files).1.files
        = (split_by_file diff_output).map (fun p => processFile oracle p.1 p.2) := by
  have hne : split_by_file diff_output ≠ [] := by
    intro h
    rw [h] at hmem
    exact absurd hmem (List.not_mem_nil _)
  have hfiles := parse_large_diff_files_eq oracle diff_output diff_files hne
  refine ⟨?_, hfiles⟩
  rw [hfiles]
  have hproc : processFile oracle nm content = minimalFileChange nm := by
    simp [processFile, parse_single_file_diff, herr]
  exact List.mem_map.mpr ⟨(nm, content), hmem, hproc⟩

/-- Witness for C6 at the two-file diff whose first fragment's request
raises `boom`. -/
theorem per_file_failure_degrades_minimal_witness :
    minimalFileChange "a.py" ∈ (parse_large_diff c6Oracle c6Diff "").1.files
      ∧ (parse_large_diff c6Oracle c6Diff "").1.files
        = (split_by_file c6Diff).map (fun p => processFile c6Oracle p.1 p.2) :=
  per_file_failure_degrades_minimal c6Oracle c6Diff "" "a.py"
    "diff --git a/a.py b/a.py\n+x" "boom" (by decide) rfl

theorem ptrOverallB_stats (st : PTRState) : (ptrOverallB st).stats = st.stats := by
  unfold ptrOverallB; cases st.current <;> rfl

theorem ptrFileSummaryB_stats (st : PTRState) : (ptrFileSummaryB st).stats = st.stats := by
  unfold ptrFileSummaryB; cases st.current <;> rfl

theorem ptrNameB_stats (st : PTRState) (n : List Char) : (ptrNameB st n).stats = st.stats := by
  unfold ptrNameB
  cases hc : st.current with
  | none => rfl
  | some cf =>
    by_cases hn : cf.name ≠ "" <;> simp [hc, hn]

theorem ptrTypeB_stats (st : PTRState) (n : List Char) : (ptrTypeB st n).stats = st.stats := by
  unfold ptrTypeB; cases st.current <;> rfl

theorem ptrSummaryB_stats (st : PTRState) (n : List Char) : (ptrSummaryB st n).stats = st.stats := by
  unfold ptrSummaryB; cases st.current <;> rfl

theorem ptrLinesAddedB_stats (st : PTRState) (n : List Char) :
    (ptrLinesAddedB st n).stats = st.stats := by
  unfold ptrLinesAddedB; cases st.current <;> rfl

theorem ptrLinesDeletedB_stats (st : PTRState) (n : List Char) :
    (ptrLinesDeletedB st n).stats = st.stats := by
  unfold ptrLinesDeletedB; cases st.current <;> rfl

theorem ptrModFuncsB_stats (st : PTRState) (n : List Char) :
    (ptrModFuncsB st n).stats = st.stats := by
  unfold ptrModFuncsB
  cases st.current with
  | none => rfl
  | some cf => by_cases hn : pyLower (ptrFieldVal n "Modified Functions:") ≠ "none".data <;> simp [hn]

theorem ptrStarB_stats (st : PTRState) (n : List Char) : (ptrStarB st n).stats = st.stats := by
  unfold ptrStarB; cases st.current <;> rfl

theorem ptrStepFile_stats (st : PTRState) (n : List Char) (st2 : PTRState)
    (h : ptrStepFile st n = some st2) : st2.stats = st.stats := by
  unfold ptrStepFile at h
  repeat' (split at h)
  all_goals first
    | (obtain rfl := Option.some.inj h
       first
        | rfl
        | exact ptrOverallB_stats st
        | exact ptrFileSummaryB_stats st
        | exact ptrNameB_stats st n
        | exact ptrTypeB_stats st n
        | exact ptrSummaryB_stats st n
        | exact ptrLinesAddedB_stats st n
        | exact ptrLinesDeletedB_stats st n
        | exact ptrModFuncsB_stats st n
        | exact ptrStarB_stats st n)
    | exact absurd h (by simp)

theorem ptrStepFile_none (st : PTRState) (n : List Char)
    (h1 : startsWith "OVERALL STATISTICS" n = false)
    (h2 : startsWith "FILE SUMMARY" n = false)
    (h3 : startsWith "Name:" n = false)
    (h4 : startsWith "Type:" n = false)
    (h5 : startsWith "Summary:" n = false)
    (h6 : startsWith "Lines Added:" n = false)
    (h7 : startsWith "Lines Deleted:" n = false)
    (h8 : startsWith "Modified Functions:" n = false)
    (h9 : startsWith "Key Changes:" n = false)
    (h10 : startsWith "*" n = false) :
    ptrStepFile st n = none := by
  simp [ptrStepFile, h1, h2, h3, h4, h5, h6, h7, h8, h9, h10]

theorem ptrStepStats_total_files (stats : OverallStats) (n : List Char)
    (h : startsWith "Total Files Changed:" n = false) :
    (ptrStepStats stats n).total_files = stats.total_files := by
  unfold ptrStepStats
  repeat' split
  all_goals first | rfl | exact absurd (by assumption) (by simp [h])

theorem ptrStepStats_total_additions (stats : OverallStats) (n : List Char)
    (h : startsWith "Total Additions:" n = false) :
    (ptrStepStats stats n).total_additions = stats.total_additions := by
  unfold ptrStepStats
  repeat' split
  all_goals first | rfl | exact absurd (by assumption) (by simp [h])

theorem ptrStepStats_total_deletions (stats : OverallStats) (n : List Char)
    (h : startsWith "Total Deletions:" n = false) :
    (ptrStepStats stats n).total_deletions = stats.total_deletions := by
  unfold ptrStepStats
  repeat' split
  all_goals first | rfl | exact absurd (by assumption) (by simp [h])

theorem ptrStepStats_change_types (stats : OverallStats) (n : List Char)
    (hm : startsWith "Modified:" n = false)
    (ha : startsWith "Added:" n = false)
    (hd : startsWith "Deleted:" n = false) :
    (ptrStepStats stats n).change_types = stats.change_types := by
  unfold ptrStepStats
  repeat' split
  all_goals first | rfl | exact absurd (by assumption) (by simp [hm, ha, hd])

theorem ptrStepStats_id (stats : OverallStats) (n : List Char)
    (h1 : startsWith "Total Files Changed:" n = false)
    (h2 : startsWith "Total Additions:" n = false)
    (h3 : startsWith "Total Deletions:" n = false)
    (h4 : startsWith "Modified:" n = false)
    (h5 : startsWith "Added:" n = false)
    (h6 : startsWith "Deleted:" n = false) :
    ptrStepStats stats n = stats := by
  simp [ptrStepStats, h1, h2, h3, h4, h5, h6]

theorem ptrStep_total_files (st : PTRState) (l : List Char)
    (h : startsWith "Total Files Changed:" (ptrNormalize l) = false) :
    (ptrStep st l).stats.total_files = st.stats.total_files := by
  simp only [ptrNormalize] at h
  simp only [ptrStep]
  split
  · rfl
  · split
    · rename_i st2 heq
      rw [ptrStepFile_stats st _ st2 heq]
    · exact ptrStepStats_total_files st.stats _ h

theorem ptrStep_total_additions (st : PTRState) (l : List Char)
    (h : startsWith "Total Additions:" (ptrNormalize l) = false) :
    (ptrStep st l).stats.total_additions = st.stats.total_additions := by
  simp only [ptrNormalize] at h
  simp only [ptrStep]
  split
  · rfl
  · split
    · rename_i st2 heq
      rw [ptrStepFile_stats st _ st2 heq]
    · exact ptrStepStats_total_additions st.stats _ h

theorem ptrStep_total_deletions (st : PTRState) (l : List Char)
    (h : startsWith "Total Deletions:" (ptrNormalize l) = false) :
    (ptrStep st l).stats.total_deletions = st.stats.total_deletions := by
  simp only [ptrNormalize] at h
  simp only [ptrStep]
  split
  · rfl
  · split
    · rename_i st2 heq
      rw [ptrStepFile_stats st _ st2 heq]
    · exact ptrStepStats_total_deletions st.stats _ h

theorem ptrStep_change_types (st : PTRState) (l : List Char)
    (hm : startsWith "Modified:" (ptrNormalize l) = false)
    (ha : startsWith "Added:" (ptrNormalize l) = false)
    (hd : startsWith "Deleted:" (ptrNormalize l) = false) :
    (ptrStep st l).stats.change_types = st.stats.change_types := by
  simp only [ptrNormalize] at hm ha hd
  simp only [ptrStep]
  split
  · rfl
  · split
    · rename_i st2 heq
      rw [ptrStepFile_stats st _ st2 heq]
    · exact ptrStepStats_change_types st.stats _ hm ha hd

theorem ptrStep_id (st : PTRState) (l : List Char) (h : ptrRecognizes l = false) :
    ptrStep st l = st := by
  by_cases hl : pyStrip l = []
  · simp [ptrStep, hl]
  · simp only [ptrRecognizes, ptrNormalize, Bool.and_eq_false_iff, decide_eq_false_iff_not,
      not_not, Bool.or_eq_false_iff, and_assoc] at h
    rcases h with h | h
    · exact absurd h hl
    · obtain ⟨h1, h2, h3, h4, h5, h6, h7, h8, h9, h10, h11, h12, h13, h14, h15, h16⟩ := h
      have hfile := ptrStepFile_none st _ h1 h2 h3 h4 h5 h6 h7 h8 h9 h10
      have hstats := ptrStepStats_id st.stats _ h11 h12 h13 h14 h15 h16
      simp [ptrStep, hl, hfile, hstats]

theorem foldl_proj_const {σ ι β : Type} (step : σ → ι → σ) (proj : σ → β) (cond : ι → Bool)
    (hstep : ∀ st l, cond l = false → proj (step st l) = proj st) :
    ∀ (ls : List ι) (st : σ), (∀ l ∈ ls, cond l = false) → proj (ls.foldl step st) = proj st := by
  intro ls
  induction ls with
  | nil => intro st _; rfl
  | cons l rest ih =>
    intro st hall
    rw [List.foldl_cons, ih (step st l) (fun x hx => hall x (List.mem_cons_of_mem _ hx)),
      hstep st l (hall l (List.mem_cons_self _ _))]

theorem parse_text_response_stats (text : String) :
    (parse_text_response text).overall_stats = ((splitLinesS text).foldl ptrStep ptrInit).stats := by
  unfold parse_text_response
  cases ((splitLinesS text).foldl ptrStep ptrInit).current <;> rfl

theorem parse_text_response_default (text : String)
    (h : ((splitLinesS text).all fun l => !ptrRecognizes l) = true) :
    parse_text_response text
      = { files := [], overall_stats :=
          { total_files := 0, total_additions := 0, total_deletions := 0,
            change_types := [("modify", 0), ("add", 0), ("delete", 0)] } } := by
  have hall : ∀ l ∈ splitLinesS text, ptrRecognizes l = false := by
    intro l hl
    simpa using List.all_eq_true.mp h l hl
  have hfold : (splitLinesS text).foldl ptrStep ptrInit = ptrInit :=
    foldl_proj_const ptrStep id ptrRecognizes (fun st l hc => ptrStep_id st l hc)
      (splitLinesS text) ptrInit hall
  unfold parse_text_response
  rw [hfold]
  rfl

theorem pcStep_summary (st : CommitAnalysis) (l : List Char)
    (h : startsWith "Summary:" (pyStrip l) = false) :
    (pcStep st l).summary = st.summary := by
  simp only [pcStep]
  repeat' split
  all_goals first | rfl | exact absurd (by assumption) (by simp [h])

theorem pcStep_type (st : CommitAnalysis) (l : List Char)
    (h : startsWith "Type:" (pyStrip l) = false) :
    (pcStep st l).type = st.type := by
  simp only [pcStep]
  repeat' split
  all_goals first | rfl | exact absurd (by assumption) (by simp [h])

theorem pcStep_scope (st : CommitAnalysis) (l : List Char)
    (h : startsWith "Scope:" (pyStrip l) = false) :
    (pcStep st l).scope = st.scope := by
  simp only [pcStep]
  repeat' split
  all_goals first | rfl | exact absurd (by assumption) (by simp [h])

theorem pcStep_files_changed (st : CommitAnalysis) (l : List Char)
    (h : startsWith "- " (pyStrip l) = false) :
    (pcStep st l).files_changed = st.files_changed := by
  simp only [pcStep]
  repeat' split
  all_goals first | rfl | exact absurd (by assumption) (by simp [h])

theorem pcStep_impact (st : CommitAnalysis) (l : List Char)
    (h : startsWith "Impact:" (pyStrip l) = false) :
    (pcStep st l).impact = st.impact := by
  simp only [pcStep]
  repeat' split
  all_goals first | rfl | exact absurd (by assumption) (by simp [h])

/-- C5: the line-oriented parsers are total and leave unmatched fields at
their defaults: when no line of the reply is recognised,
`parse_text_response` returns the fully default structure (every required
key present: empty `files`, zeroed `overall_stats` with its `change_types`
map), and field-by-field, a reply with no line carrying a given label
leaves that field at its default — 0 for the statistics, and
`"" / "unknown" / "unknown" / [] / "LOW"` for `parse_commit`. -/
theorem parsers_default_on_malformed :
    (∀ text : String, ((splitLinesS text).all fun l => !ptrRecognizes l) = true →
        parse_text_response text
          = { files := [], overall_stats :=
              { total_files := 0, total_additions := 0, total_deletions := 0,
                change_types := [("modify", 0), ("add", 0), ("delete", 0)] } })
      ∧ (∀ text : String,
          ((splitLinesS text).all fun l => !startsWith "Total Files Changed:" (ptrNormalize l)) = true →
            (parse_text_response text).overall_stats.total_files = 0)
      ∧ (∀ text : String,
          ((splitLinesS text).all fun l => !startsWith "Total Additions:" (ptrNormalize l)) = true →
            (parse_text_response text).overall_stats.total_additions = 0)
      ∧ (∀ text : String,
          ((splitLinesS text).all fun l => !startsWith "Total Deletions:" (ptrNormalize l)) = true →
            (parse_text_response text).overall_stats.total_deletions = 0)
      ∧ (∀ text : String,
          ((splitLinesS text).all fun l => !(startsWith "Modified:" (ptrNormalize l)
              || startsWith "Added:" (ptrNormalize l)
              || startsWith "Deleted:" (ptrNormalize l))) = true →
            (parse_text_response text).overall_stats.change_types
              = [("modify", 0), ("add", 0), ("delete", 0)])
      ∧ (∀ resp : String,
          ((splitLinesS resp).all fun l => !startsWith "Summary:" (pyStrip l)) = true →
            (parse_commit_response resp).summary = "")
      ∧ (∀ resp : String,
          ((splitLinesS resp).all fun l => !startsWith "Type:" (pyStrip l)) = true →
            (parse_commit_response resp).type = "unknown")
      ∧ (∀ resp : String,
          ((splitLinesS resp).all fun l => !startsWith "Scope:" (pyStrip l)) = true →
            (parse_commit_response resp).scope = "unknown")
      ∧ (∀ resp : String,
          ((splitLinesS resp).all fun l => !startsWith "- " (pyStrip l)) = true →
            (parse_commit_response resp).files_changed = [])
      ∧ (∀ resp : String,
          ((splitLinesS resp).all fun l => !startsWith "Impact:" (pyStrip l)) = true →
            (parse_commit_response resp).impact = "LOW") := by
  refine ⟨parse_text_response_default, ?_, ?_, ?_, ?_, ?_, ?_, ?_, ?_, ?_⟩
  · intro text h
    have hall : ∀ l ∈ splitLinesS text, startsWith "Total Files Changed:" (ptrNormalize l) = false := by
      intro l hl
      simpa using List.all_eq_true.mp h l hl
    rw [parse_text_response_stats]
    exact foldl_proj_const ptrStep (fun s => s.stats.total_files)
      (fun l => startsWith "Total Files Changed:" (ptrNormalize l)) ptrStep_total_files
      (splitLinesS text) ptrInit hall
  · intro text h
    have hall : ∀ l ∈ splitLinesS text, startsWith "Total Additions:" (ptrNormalize l) = false := by
      intro l hl
      simpa using List.all_eq_true.mp h l hl
    rw [parse_text_response_stats]
    exact foldl_proj_const ptrStep (fun s => s.stats.total_additions)
      (fun l => startsWith "Total Additions:" (ptrNormalize l)) ptrStep_total_additions
      (splitLinesS text) ptrInit hall
  · intro text h
    have hall : ∀ l ∈ splitLinesS text, startsWith "Total Deletions:" (ptrNormalize l) = false := by
      intro l hl
      simpa using List.all_eq_true.mp h l hl
    rw [parse_text_response_stats]
    exact foldl_proj_const ptrStep (fun s => s.stats.total_deletions)
      (fun l => startsWith "Total Deletions:" (ptrNormalize l)) ptrStep_total_deletions
      (splitLinesS text) ptrInit hall
  · intro text h
    have hall : ∀ l ∈ splitLinesS text,
        (startsWith "Modified:" (ptrNormalize l) || startsWith "Added:" (ptrNormalize l)
          || startsWith "Deleted:" (ptrNormalize l)) = false := by
      intro l hl
      simpa using List.all_eq_true.mp h l hl
    rw [parse_text_response_stats]
    refine foldl_proj_const ptrStep (fun s => s.stats.change_types)
      (fun l => startsWith "Modified:" (ptrNormalize l) || startsWith "Added:" (ptrNormalize l)
        || startsWith "Deleted:" (ptrNormalize l)) ?_ (splitLinesS text) ptrInit hall
    intro st l hc
    simp only [Bool.or_eq_false_iff] at hc
    obtain ⟨⟨hm, ha⟩, hd⟩ := hc
    exact ptrStep_change_types st l hm ha hd
  · intro resp h
    have hall : ∀ l ∈ splitLinesS resp, startsWith "Summary:" (pyStrip l) = false := by
      intro l hl
      simpa using List.all_eq_true.mp h l hl
    exact foldl_proj_const pcStep (fun s => s.summary)
      (fun l => startsWith "Summary:" (pyStrip l)) pcStep_summary (splitLinesS resp) {} hall
  · intro resp h
    have hall : ∀ l ∈ splitLinesS resp, startsWith "Type:" (pyStrip l) = false := by
      intro l hl
      simpa using List.all_eq_true.mp h l hl
    exact foldl_proj_const pcStep (fun s => s.type)
      (fun l => startsWith "Type:" (pyStrip l)) pcStep_type (splitLinesS resp) {} hall
  · intro resp h
    have hall : ∀ l ∈ splitLinesS resp, startsWith "Scope:" (pyStrip l) = false := by
      intro l hl
      simpa using List.all_eq_true.mp h l hl
    exact foldl_proj_const pcStep (fun s => s.scope)
      (fun l => startsWith "Scope:" (pyStrip l)) pcStep_scope (splitLinesS resp) {} hall
  · intro resp h
    have hall : ∀ l ∈ splitLinesS resp, startsWith "- " (pyStrip l) = false := by
      intro l hl
      simpa using List.all_eq_true.mp h l hl
    exact foldl_proj_const pcStep (fun s => s.files_changed)
      (fun l => startsWith "- " (pyStrip l)) pcStep_files_changed (splitLinesS resp) {} hall
  · intro resp h
    have hall : ∀ l ∈ splitLinesS resp, startsWith "Impact:" (pyStrip l) = false := by
      intro l hl
      simpa using List.all_eq_true.mp h l hl
    exact foldl_proj_const pcStep (fun s => s.impact)
      (fun l => startsWith "Impact:" (pyStrip l)) pcStep_impact (splitLinesS resp) {} hall

/-- Witness for C5 at concrete malformed replies. -/
theorem parsers_default_on_malformed_witness :
    parse_text_response "just some prose about the weather"
        = { files := [], overall_stats :=
            { total_files := 0, total_additions := 0, total_deletions := 0,
              change_types := [("modify", 0), ("add", 0), ("delete", 0)] } }
      ∧ (parse_text_response "no stats here").overall_stats.total_files = 0
      ∧ (parse_text_response "no stats here").overall_stats.total_additions = 0
      ∧ (parse_text_response "no stats here").overall_stats.total_deletions = 0
      ∧ (parse_text_response "no stats here").overall_stats.change_types
        = [("modify", 0), ("add", 0), ("delete", 0)]
      ∧ (parse_commit_response "free text reply").summary = ""
      ∧ (parse_commit_response "free text reply").type = "unknown"
      ∧ (parse_commit_response "free text reply").scope = "unknown"
      ∧ (parse_commit_response "free text reply").files_changed = []
      ∧ (parse_commit_response "free text reply").impact = "LOW" := by
  obtain ⟨p1, p2, p3, p4, p5, q1, q2, q3, q4, q5⟩ := parsers_default_on_malformed
  exact ⟨p1 _ (by decide), p2 _ (by decide), p3 _ (by decide), p4 _ (by decide),
    p5 _ (by decide), q1 _ (by decide), q2 _ (by decide), q3 _ (by decide),
    q4 _ (by decide), q5 _ (by decide)⟩
